import Mathlib

set_option autoImplicit false

/-
Verification of the process-supervisor and transport-bridge core of
connect-tool-gui (src/src-tauri/src/lib.rs), via a shallow embedding.

The supervisor's shared state is the global `CORE_PROCESS:
Mutex<Option<Child>>`.  All three supervisor operations hold the mutex for
their entire critical section (including the post-spawn sleep), so every
concurrent history is equivalent to some sequential interleaving; we model
the slot as an explicit `Option Child` threaded through the operations,
and an interleaving as a list of operations.

OS-dependent outcomes (filesystem existence, `Child::try_wait`,
`Command::spawn`, `Child::kill`) are inputs supplied by an `Env` record.
-/

/-- A spawned child process handle; the only attribute the code reads is
`Child::id()`, the OS process identifier. -/
structure Child where
  pid : Nat
deriving DecidableEq

/-- Outcome of the non-blocking liveness probe `Child::try_wait()`:
`Ok(Some(status))` (exited), `Ok(None)` (still alive), or `Err(e)`. -/
inductive TryWaitResult where
  | exited (code : Int)
  | alive
  | err (msg : String)
deriving DecidableEq

/-- Environment: the OS-dependent outcomes observed by one supervisor
operation. `windows`/`currentExe` feed path resolution; `coreExists` is
`core_path.exists()`; `tryWait` is keyed by the probed pid; `spawn` is the
outcome of `Command::spawn`; `kill` is the outcome of `Child::kill` keyed
by pid. -/
structure Env where
  windows : Bool
  currentExe : List String
  coreExists : Bool
  tryWait : Nat → TryWaitResult
  spawn : Except String Child
  kill : Nat → Except String Unit

/-- The platform-conventional Core file name: `ConnectToolCore.exe` on
Windows, `ConnectToolCore` elsewhere (lib.rs:751-754). -/
def coreFileName (windows : Bool) : String :=
  if windows then "ConnectToolCore.exe" else "ConnectToolCore"

/-- `get_core_executable_path` (lib.rs:747-757): the directory of the
frontend's own executable (`current_exe().parent()`, falling back to `.`)
joined with the platform core file name.  A path is a list of components. -/
def get_core_executable_path (windows : Bool) (currentExe : List String) : List String :=
  (if currentExe = [] then ["."] else currentExe.dropLast) ++ [coreFileName windows]

/-- Rendering of a path for error messages (`Path::display`). -/
def pathDisplay (p : List String) : String :=
  String.intercalate "/" p

/-- The resolved display of the Core path for the current environment. -/
def corePathDisplay (env : Env) : String :=
  pathDisplay (get_core_executable_path env.windows env.currentExe)

/-- `check_core_process_running` (lib.rs:760-784): probe the tracked child
with `try_wait`; on `Ok(Some _)` or `Err _` clear the slot and report not
running; on `Ok(None)` report running with the child's pid; empty slot
reports not running.  Returns (new slot, (is running, pid)). -/
def check_core_process_running (env : Env) (slot : Option Child) :
    Option Child × (Bool × Option Nat) :=
  match slot with
  | some child =>
    match env.tryWait child.pid with
    | .exited _ => (none, (false, none))
    | .alive => (some child, (true, some child.pid))
    | .err _ => (none, (false, none))
  | none => (none, (false, none))

/-- Outcome of `start_core_process`: the slot after the call, whether a
`Command::spawn` was attempted, and the returned value. -/
structure StartOutcome (α : Type) where
  slot : Option Child
  spawnAttempted : Bool
  result : Except String α

/-- The spawn tail of `start_core_process` (lib.rs:855-867), entered with
the slot empty: spawn, on error return the formatted message (slot stays
empty), on success store the child and return its pid. -/
def spawnStep (env : Env) : StartOutcome (Bool × Option Nat) :=
  match env.spawn with
  | .error e =>
    { slot := none, spawnAttempted := true
      result := .error ("Failed to start ConnectToolCore: " ++ e) }
  | .ok child =>
    { slot := some child, spawnAttempted := true
      result := .ok (true, some child.pid) }

/-- `start_core_process` (lib.rs:831-868, identical control flow in the
windows version 788-829): fail if the executable file is absent; if the
slot holds a child whose probe says alive, return its pid without
spawning; otherwise clear the slot and spawn. -/
def start_core_process (env : Env) (slot : Option Child) :
    StartOutcome (Bool × Option Nat) :=
  if !env.coreExists then
    { slot := slot, spawnAttempted := false
      result := .error ("ConnectToolCore not found at: " ++ corePathDisplay env) }
  else
    match slot with
    | some child =>
      match env.tryWait child.pid with
      | .alive =>
        { slot := some child, spawnAttempted := false
          result := .ok (true, some child.pid) }
      | _ => spawnStep env
    | none => spawnStep env

/-- `stop_core_process` (lib.rs:871-886): empty slot is a no-op success;
otherwise `kill` the child — on error return the formatted message with
the slot unchanged, on success reap (`wait`) and clear the slot. -/
def stop_core_process (env : Env) (slot : Option Child) :
    Option Child × Except String Unit :=
  match slot with
  | some child =>
    match env.kill child.pid with
    | .error e => (some child, .error ("Failed to kill ConnectToolCore: " ++ e))
    | .ok _ => (none, .ok ())
  | none => (none, .ok ())

/-- Response of the `get_core_status` command (lib.rs:620-624). -/
structure CoreStatusResponse where
  is_running : Bool
  pid : Option Nat
  message : String
deriving DecidableEq

/-- Response of the `start_core`/`stop_core` commands (lib.rs:628-633). -/
structure CoreControlResponse where
  success : Bool
  is_running : Bool
  pid : Option Nat
  message : String
deriving DecidableEq

/-- `get_core_status` command (lib.rs:888-903): wraps the probe result in
a `CoreStatusResponse`; always returns the `Ok` variant. -/
def get_core_status (env : Env) (slot : Option Child) :
    Option Child × Except String CoreStatusResponse :=
  let out := check_core_process_running env slot
  let is_running := out.2.1
  let pid := out.2.2
  let message :=
    if is_running then
      "ConnectToolCore is running (PID: " ++ toString (pid.getD 0) ++ ")"
    else
      "ConnectToolCore is not running"
  (out.1, .ok { is_running := is_running, pid := pid, message := message })

/-- `start_core` command (lib.rs:915-931): converts the supervisor result
into a `CoreControlResponse`, always the `Ok` variant — success carries
the returned liveness and pid, failure carries the message with
`success := false`. -/
def start_core (env : Env) (slot : Option Child) : StartOutcome CoreControlResponse :=
  let s := start_core_process env slot
  match s.result with
  | .ok (is_running, pid) =>
    { slot := s.slot, spawnAttempted := s.spawnAttempted
      result := .ok { success := true, is_running := is_running, pid := pid
                      message := "ConnectToolCore started successfully" } }
  | .error e =>
    { slot := s.slot, spawnAttempted := s.spawnAttempted
      result := .ok { success := false, is_running := false, pid := none, message := e } }

/-- `stop_core` command (lib.rs:933-948): always the `Ok` variant —
success reports not running with no pid, failure reports
`success := false, is_running := true`. -/
def stop_core (env : Env) (slot : Option Child) :
    Option Child × Except String CoreControlResponse :=
  match stop_core_process env slot with
  | (slot2, .ok _) =>
    (slot2, .ok { success := true, is_running := false, pid := none
                  message := "ConnectToolCore stopped successfully" })
  | (slot2, .error e) =>
    (slot2, .ok { success := false, is_running := true, pid := none, message := e })

/-- One supervisor operation together with the OS outcomes it observes.
The mutex serializes the three operations (each holds the lock for its
whole critical section), so a concurrent history is a sequence of these. -/
inductive Op where
  | start (env : Env)
  | stop (env : Env)
  | status (env : Env)

/-- Effect of one serialized operation on the Supervisor Slot. -/
def stepSlot (op : Op) (slot : Option Child) : Option Child :=
  match op with
  | .start env => (start_core_process env slot).slot
  | .stop env => (stop_core_process env slot).1
  | .status env => (check_core_process_running env slot).1

/-- The slot after an interleaving of operations, starting from the empty
slot the `Lazy` initializer creates (lib.rs:10). -/
def runOps (ops : List Op) : Option Child :=
  ops.foldl (fun s op => stepSlot op s) none

/-- Number of processes tracked by the slot. -/
def numTracked (slot : Option Child) : Nat :=
  match slot with
  | some _ => 1
  | none => 0

/-- The fixed local endpoint identifier (lib.rs:421-424):
`connect_tool.sock` on Windows, `/tmp/connect_tool.sock` elsewhere. -/
def socket_path (windows : Bool) : String :=
  if windows then "connect_tool.sock" else "/tmp/connect_tool.sock"

/-- `get_client` (lib.rs:419-437): dial the fixed endpoint once via the
connector.  `attempts n` is the OS outcome of the n-th connect attempt the
environment would grant; the code performs exactly one, `attempts 0`.  On
failure the error is `Failed to connect to UDS at <endpoint>: <cause>`;
the produced client is opaque to this core, modelled as `Unit`. -/
def get_client (windows : Bool) (attempts : Nat → Except String Unit) :
    Except String Unit :=
  match attempts 0 with
  | .error e =>
    .error ("Failed to connect to UDS at " ++ socket_path windows ++ ": " ++ e)
  | .ok c => .ok c


/-- A concrete environment for witnesses: Core file present, liveness
probes report alive, spawn yields pid 99, kill succeeds. -/
def envAlive : Env :=
  { windows := false, currentExe := ["opt", "app", "frontend"], coreExists := true
    tryWait := fun _ => .alive, spawn := .ok ⟨99⟩, kill := fun _ => .ok () }

/-- A concrete environment where the probe observes an exit status. -/
def envExited : Env :=
  { envAlive with tryWait := fun _ => .exited 0 }

/-- A concrete environment where the probe itself errors. -/
def envProbeErr : Env :=
  { envAlive with tryWait := fun _ => .err "probe failed" }

/-- A concrete environment where the kill signal fails. -/
def envKillFail : Env :=
  { envAlive with kill := fun _ => .error "EPERM" }

/-- A concrete environment where the Core executable file is absent. -/
def envNoCore : Env :=
  { envAlive with coreExists := false }

/-- C1 (Idempotent start): if the slot holds a child whose non-blocking
liveness probe reports it alive and the Core executable exists, `start_core`
returns success with that child's pid, attempts no spawn, and leaves the
slot holding the same single child. -/
theorem start_idempotent (env : Env) (c : Child)
    (hexists : env.coreExists = true) (halive : env.tryWait c.pid = .alive) :
    start_core env (some c) =
      { slot := some c, spawnAttempted := false
        result := .ok { success := true, is_running := true, pid := some c.pid
                        message := "ConnectToolCore started successfully" } } := by
  simp [start_core, start_core_process, hexists, halive]

/-- Witness for C1 at a concrete environment and child pid 7. -/
theorem start_idempotent_witness :
    start_core envAlive (some ⟨7⟩) =
      { slot := some ⟨7⟩, spawnAttempted := false
        result := .ok { success := true, is_running := true, pid := some 7
                        message := "ConnectToolCore started successfully" } } :=
  start_idempotent envAlive ⟨7⟩ rfl rfl

/-- C3 (Idempotent stop): with the slot empty, `stop_core` succeeds and
returns success with not-running and no pid, leaving the slot empty. -/
theorem stop_idempotent (env : Env) :
    stop_core env none =
      (none, .ok { success := true, is_running := false, pid := none
                   message := "ConnectToolCore stopped successfully" }) := rfl

/-- C4 (External-exit detection): if the tracked child's probe observes an
exit status, the next `get_core_status` clears the slot and reports
not-running with no pid; and every later status on the cleared slot again
reports not-running with no pid, so no stale identifier is returned. -/
theorem external_exit_detection (env : Env) (c : Child) (code : Int)
    (h : env.tryWait c.pid = .exited code) :
    get_core_status env (some c) =
      (none, .ok { is_running := false, pid := none
                   message := "ConnectToolCore is not running" }) ∧
    (∀ env2 : Env, get_core_status env2 none =
      (none, .ok { is_running := false, pid := none
                   message := "ConnectToolCore is not running" })) := by
  constructor
  · simp [get_core_status, check_core_process_running, h]
  · intro env2; rfl

/-- Witness for C4: exit observed for pid 7, then a second status. -/
theorem external_exit_detection_witness :
    get_core_status envExited (some ⟨7⟩) =
      (none, Except.ok { is_running := false, pid := none
                         message := "ConnectToolCore is not running" }) ∧
    get_core_status envExited none =
      (none, Except.ok { is_running := false, pid := none
                         message := "ConnectToolCore is not running" }) :=
  ⟨(external_exit_detection envExited ⟨7⟩ 0 rfl).1,
   (external_exit_detection envExited ⟨7⟩ 0 rfl).2 envExited⟩

/-- C5 (Probe-error pessimism): if the probe itself errors during status,
the result is normalized to the `Ok` variant reporting not-running with no
pid, and the slot is cleared; no error is propagated. -/
theorem probe_error_pessimism (env : Env) (c : Child) (e : String)
    (h : env.tryWait c.pid = .err e) :
    get_core_status env (some c) =
      (none, .ok { is_running := false, pid := none
                   message := "ConnectToolCore is not running" }) := by
  simp [get_core_status, check_core_process_running, h]

/-- Witness for C5 at a concrete probe error. -/
theorem probe_error_pessimism_witness :
    get_core_status envProbeErr (some ⟨7⟩) =
      (none, Except.ok { is_running := false, pid := none
                         message := "ConnectToolCore is not running" }) :=
  probe_error_pessimism envProbeErr ⟨7⟩ "probe failed" rfl

/-- C10 (Stop atomicity on kill failure): if the slot holds a child and
the kill signal fails, the slot still holds that child and `stop_core`
reports `success := false, is_running := true`; and a stop clears the slot
only when the kill succeeded. -/
theorem stop_kill_failure_atomic (env : Env) (c : Child) (e : String)
    (h : env.kill c.pid = .error e) :
    stop_core env (some c) =
      (some c, .ok { success := false, is_running := true, pid := none
                     message := "Failed to kill ConnectToolCore: " ++ e }) ∧
    (∀ (env2 : Env) (c2 : Child),
      (stop_core_process env2 (some c2)).1 = none → env2.kill c2.pid = .ok ()) := by
  constructor
  · simp [stop_core, stop_core_process, h]
  · intro env2 c2 h2
    cases hk : env2.kill c2.pid with
    | error e2 => simp [stop_core_process, hk] at h2
    | ok u => cases u; rfl

/-- Witness for C10: kill fails with a concrete message for pid 7, and a
concrete successful stop shows the clearing direction. -/
theorem stop_kill_failure_atomic_witness :
    stop_core envKillFail (some ⟨7⟩) =
      (some ⟨7⟩, Except.ok { success := false, is_running := true, pid := none
                             message := "Failed to kill ConnectToolCore: EPERM" }) ∧
    envAlive.kill (7 : Nat) = Except.ok () :=
  ⟨(stop_kill_failure_atomic envKillFail ⟨7⟩ "EPERM" rfl).1,
   (stop_kill_failure_atomic envKillFail ⟨7⟩ "EPERM" rfl).2 envAlive ⟨7⟩ rfl⟩

/-- C2 (Slot invariant): the slot starts empty; after any interleaving of
serialized Start/Stop/Status operations at most one process is tracked; a
step populates an empty slot only when it is a Start whose spawn succeeded
with that child; and a step clears a populated slot only on a successful
stop or after the liveness probe on that child reported it not alive. -/
theorem slot_invariant :
    runOps [] = none ∧
    (∀ ops : List Op, numTracked (runOps ops) ≤ 1) ∧
    (∀ (op : Op) (c : Child), stepSlot op none = some c →
      ∃ env : Env, op = .start env ∧ env.spawn = .ok c) ∧
    (∀ (op : Op) (c : Child), stepSlot op (some c) = none →
      (∃ env : Env, op = .stop env ∧ env.kill c.pid = .ok ()) ∨
      (∃ env : Env, (op = .status env ∨ op = .start env) ∧
        env.tryWait c.pid ≠ .alive)) := by
  refine ⟨rfl, ?_, ?_, ?_⟩
  · intro ops
    cases runOps ops <;> simp [numTracked]
  · intro op c h
    cases op with
    | start env =>
      refine ⟨env, rfl, ?_⟩
      cases hce : env.coreExists with
      | false => simp [stepSlot, start_core_process, hce] at h
      | true =>
        cases hs : env.spawn with
        | error e0 => simp [stepSlot, start_core_process, spawnStep, hce, hs] at h
        | ok child =>
          simp [stepSlot, start_core_process, spawnStep, hce, hs] at h
          rw [h]
    | stop env => simp [stepSlot, stop_core_process] at h
    | status env => simp [stepSlot, check_core_process_running] at h
  · intro op c h
    cases op with
    | start env =>
      refine Or.inr ⟨env, Or.inr rfl, ?_⟩
      intro halive
      cases hce : env.coreExists <;>
        simp [stepSlot, start_core_process, hce, halive] at h
    | stop env =>
      refine Or.inl ⟨env, rfl, ?_⟩
      cases hk : env.kill c.pid with
      | error e2 => simp [stepSlot, stop_core_process, hk] at h
      | ok u => cases u; rfl
    | status env =>
      refine Or.inr ⟨env, Or.inl rfl, ?_⟩
      intro halive
      simp [stepSlot, check_core_process_running, halive] at h

/-- Witness for C2: a concrete successful spawn populating the empty slot,
and a concrete successful stop clearing it. -/
theorem slot_invariant_witness :
    (∃ env : Env, Op.start envAlive = Op.start env ∧
      env.spawn = Except.ok (Child.mk 99)) ∧
    ((∃ env : Env, Op.stop envAlive = Op.stop env ∧
        env.kill (Child.mk 7).pid = Except.ok ()) ∨
      (∃ env : Env, (Op.stop envAlive = Op.status env ∨ Op.stop envAlive = Op.start env) ∧
        env.tryWait (Child.mk 7).pid ≠ TryWaitResult.alive)) :=
  ⟨slot_invariant.2.2.1 (Op.start envAlive) ⟨99⟩ rfl,
   slot_invariant.2.2.2 (Op.stop envAlive) ⟨7⟩ rfl⟩

/-- Helper: every error the start path can return is one of the two
formatted messages (file absent, or spawn failure wrapping its cause). -/
theorem start_core_process_error_shape (env : Env) (slot : Option Child) (e : String)
    (h : (start_core_process env slot).result = .error e) :
    e = "ConnectToolCore not found at: " ++ corePathDisplay env ∨
    ∃ cause, e = "Failed to start ConnectToolCore: " ++ cause := by
  cases hce : env.coreExists with
  | false =>
    simp [start_core_process, hce] at h
    exact Or.inl h.symm
  | true =>
    have hsp : ∀ hq : (spawnStep env).result = .error e,
        ∃ cause, e = "Failed to start ConnectToolCore: " ++ cause := by
      intro hq
      cases hs : env.spawn with
      | error e0 =>
        simp [spawnStep, hs] at hq
        exact ⟨e0, hq.symm⟩
      | ok child => simp [spawnStep, hs] at hq
    cases slot with
    | none =>
      simp only [start_core_process, hce] at h
      exact Or.inr (hsp h)
    | some child =>
      cases hw : env.tryWait child.pid with
      | alive => simp [start_core_process, hce, hw] at h
      | exited code =>
        simp only [start_core_process, hce, hw] at h
        exact Or.inr (hsp h)
      | err m =>
        simp only [start_core_process, hce, hw] at h
        exact Or.inr (hsp h)

/-- C6 (Structured failure results): `start_core` and `stop_core` always
return the `Ok` variant of the command Result; when the underlying
operation failed, the response carries `success := false` with the
formatted human-readable message (file-absent or spawn-failure text for
start, kill-failure text for stop), never a hard error. -/
theorem structured_failure_results (env : Env) (slot : Option Child) :
    (∃ r, (start_core env slot).result = .ok r) ∧
    (∃ r, (stop_core env slot).2 = .ok r) ∧
    (∀ e, (start_core_process env slot).result = .error e →
      (start_core env slot).result =
        .ok { success := false, is_running := false, pid := none, message := e } ∧
      (e = "ConnectToolCore not found at: " ++ corePathDisplay env ∨
        ∃ cause, e = "Failed to start ConnectToolCore: " ++ cause)) ∧
    (∀ e, (stop_core env slot).2 = .error e → False) ∧
    (∀ e, (stop_core_process env slot).2 = .error e →
      (stop_core env slot).2 =
        .ok { success := false, is_running := true, pid := none, message := e } ∧
      ∃ cause, e = "Failed to kill ConnectToolCore: " ++ cause) := by
  refine ⟨?_, ?_, ?_, ?_, ?_⟩
  · cases hr : (start_core_process env slot).result with
    | ok v =>
      obtain ⟨b, p⟩ := v
      exact ⟨{ success := true, is_running := b, pid := p
               message := "ConnectToolCore started successfully" },
        by simp [start_core, hr]⟩
    | error e0 =>
      exact ⟨{ success := false, is_running := false, pid := none, message := e0 },
        by simp [start_core, hr]⟩
  · cases hs : stop_core_process env slot with
    | mk slot2 r =>
      cases r with
      | ok u =>
        exact ⟨{ success := true, is_running := false, pid := none
                 message := "ConnectToolCore stopped successfully" },
          by simp [stop_core, hs]⟩
      | error e0 =>
        exact ⟨{ success := false, is_running := true, pid := none, message := e0 },
          by simp [stop_core, hs]⟩
  · intro e he
    refine ⟨by simp [start_core, he], start_core_process_error_shape env slot e he⟩
  · intro e he
    cases hs : stop_core_process env slot with
    | mk slot2 r =>
      cases r with
      | ok u => simp [stop_core, hs] at he
      | error e0 => simp [stop_core, hs] at he
  · intro e he
    cases slot with
    | none => simp [stop_core_process] at he
    | some child =>
      cases hk : env.kill child.pid with
      | ok u => simp [stop_core_process, hk] at he
      | error e0 =>
        simp [stop_core_process, hk] at he
        subst he
        exact ⟨by simp [stop_core, stop_core_process, hk], e0, rfl⟩

/-- Witness for C6: with the Core file absent, `start_core` returns the
`Ok` variant with `success := false` and the not-found message, and
`stop_core` also returns an `Ok` variant. -/
theorem structured_failure_results_witness :
    ((start_core envNoCore none).result =
        Except.ok { success := false, is_running := false, pid := none
                    message := "ConnectToolCore not found at: opt/app/ConnectToolCore" } ∧
      ("ConnectToolCore not found at: opt/app/ConnectToolCore" =
          "ConnectToolCore not found at: " ++ corePathDisplay envNoCore ∨
        ∃ cause, "ConnectToolCore not found at: opt/app/ConnectToolCore" =
          "Failed to start ConnectToolCore: " ++ cause)) ∧
    ∃ r, (stop_core envNoCore none).2 = Except.ok r :=
  ⟨(structured_failure_results envNoCore none).2.2.1
      "ConnectToolCore not found at: opt/app/ConnectToolCore" rfl,
   (structured_failure_results envNoCore none).2.1⟩

/-- C7 (Transport error content): `get_client` consumes exactly one
connect attempt (its outcome depends only on attempt 0), and on a failed
attempt the returned error string contains the fixed socket path and the
underlying cause verbatim. -/
theorem transport_error_content (w : Bool) (attempts : Nat → Except String Unit)
    (e : String) (h : attempts 0 = .error e) :
    (∀ attempts2 : Nat → Except String Unit, attempts2 0 = attempts 0 →
      get_client w attempts2 = get_client w attempts) ∧
    get_client w attempts =
      .error ("Failed to connect to UDS at " ++ socket_path w ++ ": " ++ e) ∧
    (∃ pre post, get_client w attempts = .error (pre ++ socket_path w ++ post)) ∧
    (∃ pre, get_client w attempts = .error (pre ++ e)) := by
  refine ⟨fun a2 h2 => by simp [get_client, h2], by simp [get_client, h], ?_, ?_⟩
  · refine ⟨"Failed to connect to UDS at ", ": " ++ e, ?_⟩
    simp [get_client, h, String.append_assoc]
  · exact ⟨"Failed to connect to UDS at " ++ socket_path w ++ ": ",
      by simp [get_client, h]⟩

/-- Witness for C7: a POSIX dial with no listener, cause string
`connection refused`. -/
theorem transport_error_content_witness :
    get_client false (fun _ => Except.error "connection refused") =
      Except.error ("Failed to connect to UDS at " ++ socket_path false ++
        ": " ++ "connection refused") ∧
    ∃ pre, get_client false (fun _ => Except.error "connection refused") =
      Except.error (pre ++ "connection refused") :=
  ⟨(transport_error_content false (fun _ => Except.error "connection refused")
      "connection refused" rfl).2.1,
   (transport_error_content false (fun _ => Except.error "connection refused")
      "connection refused" rfl).2.2.2⟩

/-- C8 (Executable path resolution): for a frontend executable at a
non-empty path, the resolved Core path lies in the same directory as the
frontend executable, its file name is `ConnectToolCore` with the
platform-conventional suffix (`.exe` on Windows, none elsewhere). -/
theorem executable_path_resolution (w : Bool) (exe : List String) (h : exe ≠ []) :
    (get_core_executable_path w exe).dropLast = exe.dropLast ∧
    (get_core_executable_path w exe).getLast? = some (coreFileName w) ∧
    coreFileName true = "ConnectToolCore" ++ ".exe" ∧
    coreFileName false = "ConnectToolCore" := by
  refine ⟨?_, ?_, rfl, rfl⟩
  · simp [get_core_executable_path, h]
  · simp [get_core_executable_path, h]

/-- Witness for C8 at a concrete Windows executable path. -/
theorem executable_path_resolution_witness :
    (get_core_executable_path true ["C:", "app", "gui.exe"]).dropLast =
      (["C:", "app", "gui.exe"] : List String).dropLast ∧
    (get_core_executable_path true ["C:", "app", "gui.exe"]).getLast? =
      some (coreFileName true) ∧
    coreFileName true = "ConnectToolCore" ++ ".exe" ∧
    coreFileName false = "ConnectToolCore" :=
  executable_path_resolution true ["C:", "app", "gui.exe"] (by simp)
